import Mathlib

/-!
# crypto-random-base-mainnet: deployment scaffolding

A shallow embedding of the three JavaScript files of the repository:

* `hardhat.config.js`  (namespace `HardhatConfig`)
* `scripts/deploy-base.js`  (namespace `DeployBase`)
* `test/RandomVRFGame.test.js`  (namespace `RandomVRFGameTest`)

The Hardhat runtime (`hre.ethers`) is an external framework: it is modelled as a
record of the answers it gives to the calls the script makes, each of which may
throw. The effects of the script (calls into Hardhat, `console.log`,
`console.error`) are recorded in order in a trace of events.
-/

namespace Js

/-- The object `process.env`: a variable is either unset (`undefined`) or a string. -/
abbrev ProcessEnv := String → Option String

/-- JavaScript truthiness of a value that is a string or `undefined`:
`undefined` and the empty string are falsy, every other string is truthy. -/
def truthy (v : Option String) : Bool :=
  match v with
  | some s => !(s == "")
  | none => false

/-- The expression `v || d` for `v` a string or `undefined` and `d` a string. -/
def or (v : Option String) (d : String) : String :=
  match v with
  | some s => if truthy (some s) then s else d
  | none => d

/-- Two environments give the same value to every listed variable. -/
def agreeOn (names : List String) (env₁ env₂ : ProcessEnv) : Prop :=
  ∀ name ∈ names, env₁ name = env₂ name

/-- A value thrown by JavaScript code: the `TypeError` the language raises on a
property read of `undefined`, or whatever a callee threw or rejected with. -/
inductive JsError where
  | typeError (msg : String)
  | thrown (msg : String)
  deriving DecidableEq, Repr

end Js

namespace HardhatConfig

open Js

/-- One entry of `networks` of a Hardhat user configuration. -/
structure NetworkConfig where
  url : String
  accounts : List String
  deriving DecidableEq, Repr

/-- The object literal `{}` given for the `hardhat` network. -/
structure EmptyObject where
  deriving DecidableEq, Repr

/-- The object `networks` of the configuration. -/
structure Networks where
  hardhat : EmptyObject
  base : NetworkConfig
  deriving DecidableEq, Repr

/-- The exported configuration object. -/
structure Config where
  solidity : String
  networks : Networks
  deriving DecidableEq, Repr

/-- The value of `module.exports` in `hardhat.config.js`. -/
def moduleExports (env : ProcessEnv) : Config :=
  { solidity := "0.8.22"
    networks :=
      { hardhat := {}
        base :=
          { url := Js.or (env "BASE_RPC_URL") ""
            accounts :=
              if truthy (env "DEPLOYER_PRIVATE_KEY") then
                match env "DEPLOYER_PRIVATE_KEY" with
                | some k => [k]
                | none => []
              else [] } } }

end HardhatConfig

namespace DeployBase

open Js

/-- A signer as returned by `hre.ethers.getSigners()`. -/
structure Signer where
  address : String
  deriving DecidableEq, Repr

/-- The contract instance a factory returns: its address and the outcome of
awaiting `game.deployed()`. -/
structure Game where
  address : String
  deployed : Except JsError Unit

/-- A contract factory: the outcome of `deploy` on a list of constructor arguments. -/
structure Factory where
  deploy : List String → Except JsError Game

/-- The part of the Hardhat runtime the script calls. -/
structure Hre where
  getSigners : Except JsError (List Signer)
  getContractFactory : String → Except JsError Factory

/-- The observable effects of a run, in the order they happen. For a call into
Hardhat `ok` tells whether the awaited call returned or threw. -/
inductive Event where
  | getSigners (ok : Bool)
  | consoleLog (label value : String)
  | getContractFactory (name : String) (ok : Bool)
  | deploy (args : List String) (ok : Bool)
  | deployed (ok : Bool)
  | consoleError (e : JsError)
  deriving DecidableEq, Repr

/-- Line 7: `process.env.VRF_COORDINATOR || "0xYourBaseVrfCoordinator"`. -/
def vrfCoordinator (env : ProcessEnv) : String :=
  Js.or (env "VRF_COORDINATOR") "0xYourBaseVrfCoordinator"

/-- Line 8: `process.env.VRF_SUBSCRIPTION_ID || "0"`. -/
def subscriptionId (env : ProcessEnv) : String :=
  Js.or (env "VRF_SUBSCRIPTION_ID") "0"

/-- Line 9: `process.env.VRF_KEY_HASH || "0xYourKeyHash"`. -/
def keyHash (env : ProcessEnv) : String :=
  Js.or (env "VRF_KEY_HASH") "0xYourKeyHash"

/-- The argument list of `RandomVRFGame.deploy(vrfCoordinator, subscriptionId, keyHash)`. -/
def constructorArgs (env : ProcessEnv) : List String :=
  [vrfCoordinator env, subscriptionId env, keyHash env]

/-- The error of reading `.address` of `undefined`, which is what the array
pattern `const [deployer] = ...` binds when the array of signers is empty. -/
def undefinedAddress : JsError :=
  .typeError "Cannot read properties of undefined (reading address)"

/-- The events up to and including the fourth `console.log`. -/
def prologue (env : ProcessEnv) (deployer : Signer) : List Event :=
  [ .getSigners true,
    .consoleLog "Deploying with:" deployer.address,
    .consoleLog "Using VRF Coordinator:" (vrfCoordinator env),
    .consoleLog "Using subscription ID:" (subscriptionId env),
    .consoleLog "Using keyHash:" (keyHash env) ]

/-- The async function `main`: the events it causes and whether its promise
fulfils or rejects. -/
def main (env : ProcessEnv) (hre : Hre) : List Event × Except JsError Unit :=
  match hre.getSigners with
  | .error e => ([.getSigners false], .error e)
  | .ok signers =>
    match signers.head? with
    | none => ([.getSigners true], .error undefinedAddress)
    | some deployer =>
      match hre.getContractFactory "RandomVRFGame" with
      | .error e =>
        (prologue env deployer ++ [.getContractFactory "RandomVRFGame" false], .error e)
      | .ok RandomVRFGame =>
        match RandomVRFGame.deploy (constructorArgs env) with
        | .error e =>
          (prologue env deployer ++
            [.getContractFactory "RandomVRFGame" true, .deploy (constructorArgs env) false],
           .error e)
        | .ok game =>
          match game.deployed with
          | .error e =>
            (prologue env deployer ++
              [.getContractFactory "RandomVRFGame" true, .deploy (constructorArgs env) true,
               .deployed false],
             .error e)
          | .ok _ =>
            (prologue env deployer ++
              [.getContractFactory "RandomVRFGame" true, .deploy (constructorArgs env) true,
               .deployed true, .consoleLog "RandomVRFGame deployed to:" game.address],
             .ok ())

/-- What a run of the script leaves behind: the trace of events and
`process.exitCode` (`none` is `undefined`, its value at start). -/
structure Process where
  trace : List Event
  exitCode : Option Nat
  deriving DecidableEq, Repr

/-- The whole script: `main().catch((error) => { console.error(error); process.exitCode = 1; })`. -/
def run (env : ProcessEnv) (hre : Hre) : Process :=
  match main env hre with
  | (t, .ok _) => { trace := t, exitCode := none }
  | (t, .error error) => { trace := t ++ [.consoleError error], exitCode := some 1 }

/-- Standard output: the `console.log` calls in order, each one line of a label and a value. -/
def stdout (p : Process) : List (String × String) :=
  p.trace.filterMap fun ev =>
    match ev with
    | .consoleLog label value => some (label, value)
    | _ => none

/-- Standard error: the values given to `console.error`, in order. -/
def stderr (p : Process) : List JsError :=
  p.trace.filterMap fun ev =>
    match ev with
    | .consoleError e => some e
    | _ => none

/-- The event is a call of the contract factory's `deploy`. -/
def Event.isDeploy : Event → Bool
  | .deploy _ _ => true
  | _ => false

/-- The event is one of the awaited deployment steps of `main`. -/
def Event.isStep : Event → Bool
  | .getSigners _ => true
  | .getContractFactory _ _ => true
  | .deploy _ _ => true
  | .deployed _ => true
  | _ => false

/-- The event is a deployment step that threw. -/
def Event.failed : Event → Bool
  | .getSigners ok => !ok
  | .getContractFactory _ ok => !ok
  | .deploy _ ok => !ok
  | .deployed ok => !ok
  | _ => false

/-- No deployment step follows a failed one in the list. -/
def noStepAfterFailure : List Event → Bool
  | [] => true
  | ev :: rest => (!ev.failed || rest.all fun x => !x.isStep) && noStepAfterFailure rest

/-- The line `RandomVRFGame deployed to:` is on standard output. -/
def deployedLinePrinted (p : Process) : Bool :=
  (stdout p).any fun line => line.1 == "RandomVRFGame deployed to:"

/-- Each of the four awaited calls of `main` (`getSigners`, `getContractFactory`,
`deploy`, `deployed`) returns rather than throws. -/
def awaitedCallsSucceed (env : ProcessEnv) (hre : Hre) : Bool :=
  match hre.getSigners with
  | .error _ => false
  | .ok _ =>
    match hre.getContractFactory "RandomVRFGame" with
    | .error _ => false
    | .ok f =>
      match f.deploy (constructorArgs env) with
      | .error _ => false
      | .ok g =>
        match g.deployed with
        | .error _ => false
        | .ok _ => true

/-- Each of the five steps of `main` that can throw succeeds: the four awaited
calls and the read of the first signer's address, which needs a signer. -/
def allStepsSucceed (env : ProcessEnv) (hre : Hre) : Bool :=
  match hre.getSigners with
  | .error _ => false
  | .ok [] => false
  | .ok (_ :: _) =>
    match hre.getContractFactory "RandomVRFGame" with
    | .error _ => false
    | .ok f =>
      match f.deploy (constructorArgs env) with
      | .error _ => false
      | .ok g =>
        match g.deployed with
        | .error _ => false
        | .ok _ => true

end DeployBase

namespace Hex

/-- A hexadecimal digit, in either case. -/
def isHexDigit (c : Char) : Bool :=
  c.isDigit || ('a' ≤ c && c ≤ 'f') || ('A' ≤ c && c ≤ 'F')

/-- A well-formed hex value of `n` bytes: `0x` followed by exactly `2 * n`
hexadecimal digits. -/
def isHexBytes (n : Nat) (s : String) : Bool :=
  match s.data with
  | '0' :: 'x' :: digits => digits.length == 2 * n && digits.all isHexDigit
  | _ => false

/-- The constant `ethers.constants.AddressZero` of the ethers library. -/
def AddressZero : String := "0x0000000000000000000000000000000000000000"

/-- The constant `ethers.constants.HashZero` of the ethers library. -/
def HashZero : String :=
  "0x0000000000000000000000000000000000000000000000000000000000000000"

end Hex

namespace RandomVRFGameTest

open Js DeployBase Hex

/-- Modelled from the spec: the state of the contract `RandomVRFGame`, whose
Solidity source is missing from the repository files. The spec names its
reported owner and its three constructor parameters (coordinator address,
subscription id, key hash). -/
structure RandomVRFGame where
  owner : String
  vrfCoordinator : String
  subscriptionId : Nat
  keyHash : String
  deriving DecidableEq, Repr

/-- Modelled from the spec: the constructor of the missing contract
`RandomVRFGame`, run in a deployment transaction sent by `sender`. The spec says
that after deployment the reported owner is the deploying account; it does not
say when deployment fails, so the condition is left open as `reverts`. -/
def RandomVRFGame.deploy (reverts : String → String → Nat → String → Bool)
    (sender vrfCoordinator : String) (subscriptionId : Nat) (keyHash : String) :
    Except JsError RandomVRFGame :=
  if reverts sender vrfCoordinator subscriptionId keyHash then
    .error (.thrown "transaction reverted")
  else
    .ok { owner := sender, vrfCoordinator := vrfCoordinator,
          subscriptionId := subscriptionId, keyHash := keyHash }

/-- The test `deploys successfully`: the deployment transaction is sent by the
first signer (with no signer nothing can send it, and the test throws), and the
result is the outcome of `expect(await game.owner()).to.equal(deployer.address)`. -/
def deploysSuccessfully (reverts : String → String → Nat → String → Bool)
    (signers : List Signer) : Except JsError Bool :=
  match signers.head? with
  | none => .error (.thrown "sending a transaction requires a signer")
  | some deployer =>
    let vrfCoordinator := AddressZero
    let subscriptionId := 0
    let keyHash := HashZero
    match RandomVRFGame.deploy reverts deployer.address vrfCoordinator subscriptionId keyHash with
    | .error e => .error e
    | .ok game => .ok (game.owner == deployer.address)

end RandomVRFGameTest

/-! ## Sample inputs -/

namespace Samples

open Js DeployBase

/-- No variable is set. -/
def emptyEnv : ProcessEnv := fun _ => none

/-- All five variables are set to non-empty strings. -/
def fullEnv : ProcessEnv := fun name =>
  if name = "BASE_RPC_URL" then some "https://mainnet.base.org"
  else if name = "DEPLOYER_PRIVATE_KEY" then some "0xabc123"
  else if name = "VRF_COORDINATOR" then some "0xd5D517aBE5cF79B7e95eC98dB0f0277788aFF634"
  else if name = "VRF_SUBSCRIPTION_ID" then some "0"
  else if name = "VRF_KEY_HASH" then some "0xdc2f87677b01473c763cb0aee938ed3341512f6057324a584e5944e786144d70"
  else none

/-- As `fullEnv`, with one more variable that the code never reads. -/
def fullEnvAndPath : ProcessEnv := fun name =>
  if name = "PATH" then some "/usr/bin" else fullEnv name

/-- The three VRF variables are set to the empty string. -/
def blankEnv : ProcessEnv := fun name =>
  if name = "VRF_COORDINATOR" then some ""
  else if name = "VRF_SUBSCRIPTION_ID" then some ""
  else if name = "VRF_KEY_HASH" then some ""
  else none

/-- A contract instance whose deployment is mined. -/
def minedGame : Game := { address := "0x5FbDB2315678afecb367f032d93F642f64180aa3", deployed := .ok () }

/-- A contract instance whose deployment transaction fails while it is awaited. -/
def stuckGame : Game :=
  { address := "0x5FbDB2315678afecb367f032d93F642f64180aa3", deployed := .error (.thrown "timeout") }

/-- One signer. -/
def alice : Signer := { address := "0xf39Fd6e51aad88F6F4ce6aB8827279cffFb92266" }

/-- A runtime in which every call succeeds. -/
def goodHre : Hre :=
  { getSigners := .ok [alice]
    getContractFactory := fun _ => .ok { deploy := fun _ => .ok minedGame } }

/-- A runtime with no account configured: `getSigners` returns the empty
array, and every other call would succeed. -/
def noSignerHre : Hre :=
  { getSigners := .ok []
    getContractFactory := fun _ => .ok { deploy := fun _ => .ok minedGame } }

/-- A runtime in which `deploy` rejects. -/
def rejectingHre : Hre :=
  { getSigners := .ok [alice]
    getContractFactory := fun _ => .ok { deploy := fun _ => .error (.thrown "invalid address") } }

/-- A runtime in which the wait for the deployment rejects. -/
def stuckHre : Hre :=
  { getSigners := .ok [alice]
    getContractFactory := fun _ => .ok { deploy := fun _ => .ok stuckGame } }

end Samples

/-! ## Shared lemmas -/

namespace Js

theorem or_none (d : String) : Js.or none d = d := rfl

theorem or_empty (d : String) : Js.or (some "") d = d := by
  simp [Js.or, truthy]

theorem or_nonempty (s d : String) (h : s ≠ "") : Js.or (some s) d = s := by
  simp [Js.or, truthy, h]

end Js

namespace DeployBase

open Js

/-- The shapes a run of `main` can take. -/
theorem main_cases (env : ProcessEnv) (hre : Hre) :
    (∃ e, hre.getSigners = .error e ∧ main env hre = ([.getSigners false], .error e)) ∨
    (hre.getSigners = .ok [] ∧ main env hre = ([.getSigners true], .error undefinedAddress)) ∨
    (∃ d rest e, hre.getSigners = .ok (d :: rest) ∧
      hre.getContractFactory "RandomVRFGame" = .error e ∧
      main env hre =
        (prologue env d ++ [.getContractFactory "RandomVRFGame" false], .error e)) ∨
    (∃ d rest f e, hre.getSigners = .ok (d :: rest) ∧
      hre.getContractFactory "RandomVRFGame" = .ok f ∧
      f.deploy (constructorArgs env) = .error e ∧
      main env hre =
        (prologue env d ++
          [.getContractFactory "RandomVRFGame" true, .deploy (constructorArgs env) false],
         .error e)) ∨
    (∃ d rest f g e, hre.getSigners = .ok (d :: rest) ∧
      hre.getContractFactory "RandomVRFGame" = .ok f ∧
      f.deploy (constructorArgs env) = .ok g ∧ g.deployed = .error e ∧
      main env hre =
        (prologue env d ++
          [.getContractFactory "RandomVRFGame" true, .deploy (constructorArgs env) true,
           .deployed false],
         .error e)) ∨
    (∃ d rest f g, hre.getSigners = .ok (d :: rest) ∧
      hre.getContractFactory "RandomVRFGame" = .ok f ∧
      f.deploy (constructorArgs env) = .ok g ∧ g.deployed = .ok () ∧
      main env hre =
        (prologue env d ++
          [.getContractFactory "RandomVRFGame" true, .deploy (constructorArgs env) true,
           .deployed true, .consoleLog "RandomVRFGame deployed to:" g.address],
         .ok ())) := by
  unfold main
  cases hs : hre.getSigners with
  | error e => exact Or.inl ⟨e, rfl, rfl⟩
  | ok signers =>
    cases signers with
    | nil => exact Or.inr (Or.inl ⟨rfl, rfl⟩)
    | cons d rest =>
      cases hf : hre.getContractFactory "RandomVRFGame" with
      | error e => exact Or.inr (Or.inr (Or.inl ⟨d, rest, e, rfl, rfl, rfl⟩))
      | ok f =>
        cases hd : f.deploy (constructorArgs env) with
        | error e =>
          refine Or.inr (Or.inr (Or.inr (Or.inl ⟨d, rest, f, e, rfl, rfl, hd, ?_⟩)))
          simp [hd]
        | ok g =>
          cases hw : g.deployed with
          | error e =>
            refine Or.inr (Or.inr (Or.inr (Or.inr (Or.inl ⟨d, rest, f, g, e, rfl, rfl, hd, hw, ?_⟩))))
            simp [hd, hw]
          | ok u =>
            refine Or.inr (Or.inr (Or.inr (Or.inr (Or.inr ⟨d, rest, f, g, rfl, rfl, hd, hw, ?_⟩))))
            simp [hd, hw]

end DeployBase

namespace DeployBase

open Js

theorem main_trace_no_consoleError (env : ProcessEnv) (hre : Hre) :
    stderr { trace := (main env hre).1, exitCode := none } = [] := by
  rcases main_cases env hre with ⟨e, _, hm⟩ | ⟨_, hm⟩ | ⟨d, rest, e, _, _, hm⟩ |
    ⟨d, rest, f, e, _, _, _, hm⟩ | ⟨d, rest, f, g, e, _, _, _, _, hm⟩ |
    ⟨d, rest, f, g, _, _, _, _, hm⟩ <;>
  simp [hm, stderr, prologue]

theorem run_of_error (env : ProcessEnv) (hre : Hre) (e : JsError)
    (h : (main env hre).2 = .error e) :
    run env hre = { trace := (main env hre).1 ++ [.consoleError e], exitCode := some 1 } := by
  unfold run
  rcases hm : main env hre with ⟨t, r⟩
  rw [hm] at h
  simp only at h
  subst h
  rfl

/-- Every `deploy` call of a run is made with the three resolved values. -/
theorem deploy_event_args (env : ProcessEnv) (hre : Hre) (args : List String) (ok : Bool)
    (h : Event.deploy args ok ∈ (run env hre).trace) : args = constructorArgs env := by
  rcases main_cases env hre with ⟨e, _, hm⟩ | ⟨_, hm⟩ | ⟨d, rest, e, _, _, hm⟩ |
    ⟨d, rest, f, e, _, _, _, hm⟩ | ⟨d, rest, f, g, e, _, _, _, _, hm⟩ |
    ⟨d, rest, f, g, _, _, _, _, hm⟩ <;>
  simp [run, hm, prologue] at h <;> simp [h]

theorem noStepAfterFailure_split (t : List Event) (h : noStepAfterFailure t = true)
    (pre : List Event) (ev : Event) (post : List Event) (ht : t = pre ++ ev :: post)
    (hf : ev.failed = true) : ∀ x ∈ post, x.isStep = false := by
  induction pre generalizing t with
  | nil =>
    subst ht
    simp [noStepAfterFailure, hf] at h
    intro x hx
    exact h.1 x hx
  | cons p pre ih =>
    subst ht
    simp only [List.cons_append, noStepAfterFailure, Bool.and_eq_true] at h
    exact ih _ h.2 rfl

end DeployBase

/-! ## The Hardhat configuration -/

namespace HardhatConfig

open Js

/-- C7: the `base` network of the exported configuration has `url` equal to
`BASE_RPC_URL` when that variable is a non-empty string and `""` otherwise, and
`accounts` equal to `[DEPLOYER_PRIVATE_KEY]` when that variable is a non-empty
string and `[]` otherwise; so `accounts` has at most one element and never
holds the empty string. -/
theorem base_network_from_env (env : ProcessEnv) :
    (∀ v, env "BASE_RPC_URL" = some v → v ≠ "" → (moduleExports env).networks.base.url = v) ∧
    (env "BASE_RPC_URL" = none ∨ env "BASE_RPC_URL" = some "" →
      (moduleExports env).networks.base.url = "") ∧
    (∀ k, env "DEPLOYER_PRIVATE_KEY" = some k → k ≠ "" →
      (moduleExports env).networks.base.accounts = [k]) ∧
    (env "DEPLOYER_PRIVATE_KEY" = none ∨ env "DEPLOYER_PRIVATE_KEY" = some "" →
      (moduleExports env).networks.base.accounts = []) ∧
    (moduleExports env).networks.base.accounts.length ≤ 1 ∧
    "" ∉ (moduleExports env).networks.base.accounts := by
  refine ⟨?_, ?_, ?_, ?_, ?_, ?_⟩
  · intro v hv hne
    simp [moduleExports, hv, or_nonempty v "" hne]
  · rintro (h | h) <;> simp [moduleExports, h, Js.or, truthy]
  · intro k hk hne
    simp [moduleExports, hk, truthy, hne]
  · rintro (h | h) <;> simp [moduleExports, h, truthy]
  · cases h : env "DEPLOYER_PRIVATE_KEY" with
    | none => simp [moduleExports, h, truthy]
    | some k => by_cases hk : k = "" <;> simp [moduleExports, h, truthy, hk]
  · cases h : env "DEPLOYER_PRIVATE_KEY" with
    | none => simp [moduleExports, h, truthy]
    | some k =>
      by_cases hk : k = ""
      · simp [moduleExports, h, truthy, hk]
      · simpa [moduleExports, h, truthy, hk] using fun h' => hk h'.symm

/-- C7 at sample environments: every variable set, and no variable set. -/
theorem base_network_from_env_witness :
    (moduleExports Samples.fullEnv).networks.base.url = "https://mainnet.base.org" ∧
    (moduleExports Samples.fullEnv).networks.base.accounts = ["0xabc123"] ∧
    (moduleExports Samples.emptyEnv).networks.base.url = "" ∧
    (moduleExports Samples.emptyEnv).networks.base.accounts = [] :=
  ⟨(base_network_from_env Samples.fullEnv).1 _ rfl (by decide),
   (base_network_from_env Samples.fullEnv).2.2.1 _ rfl (by decide),
   (base_network_from_env Samples.emptyEnv).2.1 (Or.inl rfl),
   (base_network_from_env Samples.emptyEnv).2.2.2.1 (Or.inl rfl)⟩

end HardhatConfig

/-! ## Resolution of the constructor arguments -/

namespace DeployBase

open Js

/-- C8: each of the three resolved values is a non-empty string; a variable that
is unset or empty falls back to its default, any non-empty value, `"0"` for the
subscription id included, is used as given, and each value is decided by its
own variable alone. -/
theorem resolved_values_nonempty (env : ProcessEnv) :
    (vrfCoordinator env ≠ "" ∧ subscriptionId env ≠ "" ∧ keyHash env ≠ "") ∧
    ((env "VRF_COORDINATOR" = none ∨ env "VRF_COORDINATOR" = some "" →
        vrfCoordinator env = "0xYourBaseVrfCoordinator") ∧
      (env "VRF_SUBSCRIPTION_ID" = none ∨ env "VRF_SUBSCRIPTION_ID" = some "" →
        subscriptionId env = "0") ∧
      (env "VRF_KEY_HASH" = none ∨ env "VRF_KEY_HASH" = some "" →
        keyHash env = "0xYourKeyHash")) ∧
    ((∀ v, env "VRF_COORDINATOR" = some v → v ≠ "" → vrfCoordinator env = v) ∧
      (∀ v, env "VRF_SUBSCRIPTION_ID" = some v → v ≠ "" → subscriptionId env = v) ∧
      (∀ v, env "VRF_KEY_HASH" = some v → v ≠ "" → keyHash env = v)) ∧
    (env "VRF_SUBSCRIPTION_ID" = some "0" → subscriptionId env = "0") ∧
    (∀ other : ProcessEnv,
      (other "VRF_COORDINATOR" = env "VRF_COORDINATOR" →
        vrfCoordinator other = vrfCoordinator env) ∧
      (other "VRF_SUBSCRIPTION_ID" = env "VRF_SUBSCRIPTION_ID" →
        subscriptionId other = subscriptionId env) ∧
      (other "VRF_KEY_HASH" = env "VRF_KEY_HASH" → keyHash other = keyHash env)) := by
  have key : ∀ (v : Option String) (d : String), d ≠ "" → Js.or v d ≠ "" := by
    intro v d hd
    cases v with
    | none => simpa [Js.or] using hd
    | some s =>
      by_cases hs : s = ""
      · simpa [Js.or, truthy, hs] using hd
      · simp [Js.or, truthy, hs]
  refine ⟨⟨key _ _ (by decide), key _ _ (by decide), key _ _ (by decide)⟩, ⟨?_, ?_, ?_⟩,
    ⟨?_, ?_, ?_⟩, ?_, ?_⟩
  · rintro (h | h) <;> simp [vrfCoordinator, h, Js.or, truthy]
  · rintro (h | h) <;> simp [subscriptionId, h, Js.or, truthy]
  · rintro (h | h) <;> simp [keyHash, h, Js.or, truthy]
  · intro v hv hne
    simp [vrfCoordinator, hv, or_nonempty v _ hne]
  · intro v hv hne
    simp [subscriptionId, hv, or_nonempty v _ hne]
  · intro v hv hne
    simp [keyHash, hv, or_nonempty v _ hne]
  · intro h
    simp [subscriptionId, h, Js.or, truthy]
  · intro other
    refine ⟨?_, ?_, ?_⟩
    · intro h
      simp [vrfCoordinator, h]
    · intro h
      simp [subscriptionId, h]
    · intro h
      simp [keyHash, h]

/-- C8 at sample environments: nothing set, the three variables empty, and all set. -/
theorem resolved_values_nonempty_witness :
    constructorArgs Samples.emptyEnv = ["0xYourBaseVrfCoordinator", "0", "0xYourKeyHash"] ∧
    vrfCoordinator Samples.blankEnv = "0xYourBaseVrfCoordinator" ∧
    subscriptionId Samples.blankEnv = "0" ∧
    keyHash Samples.blankEnv = "0xYourKeyHash" ∧
    subscriptionId Samples.fullEnv = "0" ∧
    vrfCoordinator Samples.fullEnv = "0xd5D517aBE5cF79B7e95eC98dB0f0277788aFF634" := by
  have h₀ := (resolved_values_nonempty Samples.emptyEnv).2.1
  have h₁ := (resolved_values_nonempty Samples.blankEnv).2.1
  have h₂ := resolved_values_nonempty Samples.fullEnv
  refine ⟨?_, h₁.1 (Or.inr rfl), h₁.2.1 (Or.inr rfl), h₁.2.2 (Or.inr rfl),
    h₂.2.2.2.1 rfl, h₂.2.2.1.1 _ rfl (by decide)⟩
  simp [constructorArgs, h₀.1 (Or.inl rfl), h₀.2.1 (Or.inl rfl), h₀.2.2 (Or.inl rfl)]

/-- The three resolved values, and with them the whole run, are the same for
two environments that agree on the three VRF variables. -/
theorem run_congr_env (env₁ env₂ : ProcessEnv)
    (h : agreeOn ["VRF_COORDINATOR", "VRF_SUBSCRIPTION_ID", "VRF_KEY_HASH"] env₁ env₂) :
    constructorArgs env₁ = constructorArgs env₂ ∧ ∀ hre, run env₁ hre = run env₂ hre := by
  have h₁ : vrfCoordinator env₁ = vrfCoordinator env₂ := by
    simp [vrfCoordinator, h "VRF_COORDINATOR" (by simp)]
  have h₂ : subscriptionId env₁ = subscriptionId env₂ := by
    simp [subscriptionId, h "VRF_SUBSCRIPTION_ID" (by simp)]
  have h₃ : keyHash env₁ = keyHash env₂ := by
    simp [keyHash, h "VRF_KEY_HASH" (by simp)]
  refine ⟨by simp [constructorArgs, h₁, h₂, h₃], fun hre => ?_⟩
  have hm : main env₁ hre = main env₂ hre := by
    simp [main, prologue, constructorArgs, h₁, h₂, h₃]
  simp [run, hm]

end DeployBase

namespace HardhatConfig

open Js DeployBase

/-- The exported configuration is the same for two environments that agree on
`BASE_RPC_URL` and `DEPLOYER_PRIVATE_KEY`. -/
theorem moduleExports_congr_env (env₁ env₂ : ProcessEnv)
    (h : agreeOn ["BASE_RPC_URL", "DEPLOYER_PRIVATE_KEY"] env₁ env₂) :
    moduleExports env₁ = moduleExports env₂ := by
  simp [moduleExports, h "BASE_RPC_URL" (by simp), h "DEPLOYER_PRIVATE_KEY" (by simp)]

/-- C4: only the five variables are read. Two environments that agree on the
five give the same exported configuration and the same constructor arguments
(and the same run of the deploy script); the constructor arguments depend on
the three VRF variables only, the network configuration on `BASE_RPC_URL` and
`DEPLOYER_PRIVATE_KEY` only. -/
theorem only_five_variables_read (env₁ env₂ : ProcessEnv) :
    (agreeOn ["BASE_RPC_URL", "DEPLOYER_PRIVATE_KEY", "VRF_COORDINATOR", "VRF_SUBSCRIPTION_ID",
        "VRF_KEY_HASH"] env₁ env₂ →
      moduleExports env₁ = moduleExports env₂ ∧ constructorArgs env₁ = constructorArgs env₂ ∧
      ∀ hre, run env₁ hre = run env₂ hre) ∧
    (agreeOn ["VRF_COORDINATOR", "VRF_SUBSCRIPTION_ID", "VRF_KEY_HASH"] env₁ env₂ →
      constructorArgs env₁ = constructorArgs env₂) ∧
    (agreeOn ["BASE_RPC_URL", "DEPLOYER_PRIVATE_KEY"] env₁ env₂ →
      (moduleExports env₁).networks = (moduleExports env₂).networks) := by
  refine ⟨fun h => ⟨?_, ?_⟩, fun h => (run_congr_env env₁ env₂ h).1, fun h => ?_⟩
  · exact moduleExports_congr_env env₁ env₂ fun n hn => h n (by simp at hn ⊢; tauto)
  · exact run_congr_env env₁ env₂ fun n hn => h n (by simp at hn ⊢; tauto)
  · rw [moduleExports_congr_env env₁ env₂ h]

/-- C4 at two sample environments that differ in `PATH` alone. -/
theorem only_five_variables_read_witness :
    Samples.fullEnv "PATH" ≠ Samples.fullEnvAndPath "PATH" ∧
    moduleExports Samples.fullEnv = moduleExports Samples.fullEnvAndPath ∧
    constructorArgs Samples.fullEnv = constructorArgs Samples.fullEnvAndPath ∧
    run Samples.fullEnv Samples.goodHre = run Samples.fullEnvAndPath Samples.goodHre := by
  have h := (only_five_variables_read Samples.fullEnv Samples.fullEnvAndPath).1
    (by intro n hn; simp at hn; rcases hn with rfl | rfl | rfl | rfl | rfl <;> rfl)
  exact ⟨by decide, h.1, h.2.1, h.2.2 _⟩

end HardhatConfig

/-! ## The run of the deploy script -/

namespace DeployBase

open Js

/-- C2: whenever `main` throws or rejects, at whichever step, the thrown error
is written to standard error and `process.exitCode` is set to 1. -/
theorem error_logged_and_exit_code_set (env : ProcessEnv) (hre : Hre) (e : JsError)
    (h : (main env hre).2 = .error e) :
    stderr (run env hre) = [e] ∧ (run env hre).exitCode = some 1 := by
  have hnone := main_trace_no_consoleError env hre
  rw [run_of_error env hre e h]
  simp only [stderr] at hnone ⊢
  simp [List.filterMap_append, hnone]

/-- C2 at a sample run in which `deploy` rejects. -/
theorem error_logged_and_exit_code_set_witness :
    stderr (run Samples.emptyEnv Samples.rejectingHre) = [.thrown "invalid address"] ∧
    (run Samples.emptyEnv Samples.rejectingHre).exitCode = some 1 :=
  error_logged_and_exit_code_set Samples.emptyEnv Samples.rejectingHre _ rfl

/-- A failure of any of the four awaited calls makes `main` reject with the
error of that call. -/
theorem main_rejects_of_step_failure (env : ProcessEnv) (hre : Hre) (e : JsError) :
    (hre.getSigners = .error e → (main env hre).2 = .error e) ∧
    (∀ d rest, hre.getSigners = .ok (d :: rest) →
      hre.getContractFactory "RandomVRFGame" = .error e → (main env hre).2 = .error e) ∧
    (∀ d rest f, hre.getSigners = .ok (d :: rest) →
      hre.getContractFactory "RandomVRFGame" = .ok f →
      f.deploy (constructorArgs env) = .error e → (main env hre).2 = .error e) ∧
    (∀ d rest f g, hre.getSigners = .ok (d :: rest) →
      hre.getContractFactory "RandomVRFGame" = .ok f →
      f.deploy (constructorArgs env) = .ok g → g.deployed = .error e →
      (main env hre).2 = .error e) := by
  refine ⟨fun hs => ?_, fun d rest hs hf => ?_, fun d rest f hs hf hd => ?_,
    fun d rest f g hs hf hd hw => ?_⟩
  · simp [main, hs]
  · simp [main, hs, hf]
  · simp [main, hs, hf, hd]
  · simp [main, hs, hf, hd, hw]

/-- C3: every `deploy` call of a run has exactly the three arguments
coordinator, subscription id, key hash, in this order, each resolved from its
own variable; the call is made once a signer and the factory were obtained;
when the three variables are non-empty strings the arguments are these strings;
and the address printed at the end is the address of the instance returned by
that call. -/
theorem constructor_called_with_resolved_args (env : ProcessEnv) (hre : Hre) :
    (∀ args ok, Event.deploy args ok ∈ (run env hre).trace →
      args = [Js.or (env "VRF_COORDINATOR") "0xYourBaseVrfCoordinator",
              Js.or (env "VRF_SUBSCRIPTION_ID") "0",
              Js.or (env "VRF_KEY_HASH") "0xYourKeyHash"]) ∧
    (∀ d rest f, hre.getSigners = .ok (d :: rest) →
      hre.getContractFactory "RandomVRFGame" = .ok f →
      ∃ ok, Event.deploy (constructorArgs env) ok ∈ (run env hre).trace) ∧
    (∀ c s k, env "VRF_COORDINATOR" = some c → c ≠ "" →
      env "VRF_SUBSCRIPTION_ID" = some s → s ≠ "" →
      env "VRF_KEY_HASH" = some k → k ≠ "" → constructorArgs env = [c, s, k]) ∧
    (∀ address, ("RandomVRFGame deployed to:", address) ∈ stdout (run env hre) →
      ∃ f game, hre.getContractFactory "RandomVRFGame" = .ok f ∧
        f.deploy (constructorArgs env) = .ok game ∧ address = game.address) := by
  refine ⟨fun args ok h => deploy_event_args env hre args ok h, ?_, ?_, ?_⟩
  · intro d rest f hs hf
    rcases main_cases env hre with ⟨e, hs', _⟩ | ⟨hs', _⟩ | ⟨d', rest', e, _, hf', _⟩ |
      ⟨d', rest', f', e, _, _, _, hm⟩ | ⟨d', rest', f', g, e, _, _, _, _, hm⟩ |
      ⟨d', rest', f', g, _, _, _, _, hm⟩
    · simp [hs] at hs'
    · simp [hs] at hs'
    · simp [hf] at hf'
    · exact ⟨false, by simp [run, hm]⟩
    · exact ⟨true, by simp [run, hm]⟩
    · exact ⟨true, by simp [run, hm]⟩
  · intro c s k hc hc' hs hs' hk hk'
    simp [constructorArgs, vrfCoordinator, subscriptionId, keyHash, hc, hs, hk,
      or_nonempty _ _ hc', or_nonempty _ _ hs', or_nonempty _ _ hk']
  · intro address h
    rcases main_cases env hre with ⟨e, _, hm⟩ | ⟨_, hm⟩ | ⟨d, rest, e, _, _, hm⟩ |
      ⟨d, rest, f, e, _, _, _, hm⟩ | ⟨d, rest, f, g, e, _, _, _, _, hm⟩ |
      ⟨d, rest, f, g, _, hf, hd, _, hm⟩
    all_goals simp [run, hm, stdout, prologue] at h
    exact ⟨f, g, hf, hd, h⟩

/-- C3 at a sample run with every variable set and every call succeeding. -/
theorem constructor_called_with_resolved_args_witness :
    Event.deploy ["0xd5D517aBE5cF79B7e95eC98dB0f0277788aFF634", "0",
        "0xdc2f87677b01473c763cb0aee938ed3341512f6057324a584e5944e786144d70"] true ∈
      (run Samples.fullEnv Samples.goodHre).trace ∧
    constructorArgs Samples.fullEnv =
      ["0xd5D517aBE5cF79B7e95eC98dB0f0277788aFF634", "0",
        "0xdc2f87677b01473c763cb0aee938ed3341512f6057324a584e5944e786144d70"] ∧
    ("RandomVRFGame deployed to:", Samples.minedGame.address) ∈
      stdout (run Samples.fullEnv Samples.goodHre) :=
  ⟨by decide,
   (constructor_called_with_resolved_args Samples.fullEnv Samples.goodHre).2.2.1 _ _ _
     rfl (by decide) rfl (by decide) rfl (by decide),
   by decide⟩

/-- C5: there is no retry. In every run `deploy` is called at most once, no
deployment step follows a failed one, and once `main` has rejected the only
further event is the `console.error` of the handler. -/
theorem no_retry (env : ProcessEnv) (hre : Hre) :
    ((run env hre).trace.filter Event.isDeploy).length ≤ 1 ∧
    (∀ pre ev post, (run env hre).trace = pre ++ ev :: post → ev.failed = true →
      ∀ x ∈ post, x.isStep = false) ∧
    (∀ e, (main env hre).2 = .error e →
      (run env hre).trace = (main env hre).1 ++ [.consoleError e]) := by
  refine ⟨?_, ?_, fun e h => by rw [run_of_error env hre e h]⟩
  · rcases main_cases env hre with ⟨e, _, hm⟩ | ⟨_, hm⟩ | ⟨d, rest, e, _, _, hm⟩ |
      ⟨d, rest, f, e, _, _, _, hm⟩ | ⟨d, rest, f, g, e, _, _, _, _, hm⟩ |
      ⟨d, rest, f, g, _, _, _, _, hm⟩ <;>
    simp [run, hm, prologue, List.filter, Event.isDeploy]
  · refine noStepAfterFailure_split _ ?_
    rcases main_cases env hre with ⟨e, _, hm⟩ | ⟨_, hm⟩ | ⟨d, rest, e, _, _, hm⟩ |
      ⟨d, rest, f, e, _, _, _, hm⟩ | ⟨d, rest, f, g, e, _, _, _, _, hm⟩ |
      ⟨d, rest, f, g, _, _, _, _, hm⟩ <;>
    simp [run, hm, prologue, noStepAfterFailure, Event.failed, Event.isStep]

/-- C5 at a sample run in which `deploy` rejects: the failed call is the last
deployment step of the trace. -/
theorem no_retry_witness :
    (run Samples.emptyEnv Samples.rejectingHre).trace =
      (prologue Samples.emptyEnv Samples.alice ++ [.getContractFactory "RandomVRFGame" true]) ++
        Event.deploy (constructorArgs Samples.emptyEnv) false ::
          [.consoleError (.thrown "invalid address")] ∧
    ∀ x ∈ [Event.consoleError (.thrown "invalid address")], x.isStep = false :=
  ⟨by decide,
   (no_retry Samples.emptyEnv Samples.rejectingHre).2.1
     (prologue Samples.emptyEnv Samples.alice ++ [.getContractFactory "RandomVRFGame" true])
     (Event.deploy (constructorArgs Samples.emptyEnv) false)
     [.consoleError (.thrown "invalid address")] (by decide) rfl⟩

/-- C6: a successful run is this sequence of events, in this order: the call of
`getSigners`, four lines on standard output, the calls of `getContractFactory`,
`deploy` and `deployed`, and the fifth line. Standard output is exactly the
five lines, and lines two to four show the values passed to the constructor. -/
theorem successful_run_is_sequential (env : ProcessEnv) (hre : Hre)
    (h : (main env hre).2 = .ok ()) :
    ∃ deployer rest f game,
      hre.getSigners = .ok (deployer :: rest) ∧
      hre.getContractFactory "RandomVRFGame" = .ok f ∧
      f.deploy [vrfCoordinator env, subscriptionId env, keyHash env] = .ok game ∧
      game.deployed = .ok () ∧
      (run env hre).trace =
        [ .getSigners true,
          .consoleLog "Deploying with:" deployer.address,
          .consoleLog "Using VRF Coordinator:" (vrfCoordinator env),
          .consoleLog "Using subscription ID:" (subscriptionId env),
          .consoleLog "Using keyHash:" (keyHash env),
          .getContractFactory "RandomVRFGame" true,
          .deploy [vrfCoordinator env, subscriptionId env, keyHash env] true,
          .deployed true,
          .consoleLog "RandomVRFGame deployed to:" game.address ] ∧
      stdout (run env hre) =
        [ ("Deploying with:", deployer.address),
          ("Using VRF Coordinator:", vrfCoordinator env),
          ("Using subscription ID:", subscriptionId env),
          ("Using keyHash:", keyHash env),
          ("RandomVRFGame deployed to:", game.address) ] ∧
      stderr (run env hre) = [] ∧
      (run env hre).exitCode = none := by
  rcases main_cases env hre with ⟨e, _, hm⟩ | ⟨_, hm⟩ | ⟨d, rest, e, _, _, hm⟩ |
    ⟨d, rest, f, e, _, _, _, hm⟩ | ⟨d, rest, f, g, e, _, _, _, _, hm⟩ |
    ⟨d, rest, f, g, hs, hf, hd, hw, hm⟩
  · simp [hm] at h
  · simp [hm] at h
  · simp [hm] at h
  · simp [hm] at h
  · simp [hm] at h
  · refine ⟨d, rest, f, g, hs, hf, hd, hw, ?_, ?_, ?_, ?_⟩ <;>
    simp [run, hm, prologue, constructorArgs, stdout, stderr]

/-- C6 at a sample run with no variable set and every call succeeding. -/
theorem successful_run_is_sequential_witness :
    stdout (run Samples.emptyEnv Samples.goodHre) =
      [ ("Deploying with:", "0xf39Fd6e51aad88F6F4ce6aB8827279cffFb92266"),
        ("Using VRF Coordinator:", "0xYourBaseVrfCoordinator"),
        ("Using subscription ID:", "0"),
        ("Using keyHash:", "0xYourKeyHash"),
        ("RandomVRFGame deployed to:", "0x5FbDB2315678afecb367f032d93F642f64180aa3") ] := by
  obtain ⟨d, rest, f, g, hs, hf, hd, hw, _, hout, _⟩ :=
    successful_run_is_sequential Samples.emptyEnv Samples.goodHre rfl
  simp only [Samples.goodHre, Except.ok.injEq, List.cons.injEq] at hs hf hd
  obtain ⟨rfl, -⟩ := hs
  subst hf
  simp only [Except.ok.injEq] at hd
  subst hd
  rw [hout]
  decide

end DeployBase

namespace DeployBase

open Js Hex

/-- C10, as stated, fails when `getSigners` returns the empty array: the exit
code is set to 1 and an error is written to standard error although none of
the awaited calls has failed, and the line `RandomVRFGame deployed to:` is not
printed although each of the four calls succeeds. -/
theorem failure_without_failed_call :
    (run Samples.emptyEnv Samples.noSignerHre).trace =
      [.getSigners true, .consoleError undefinedAddress] ∧
    (run Samples.emptyEnv Samples.noSignerHre).exitCode = some 1 ∧
    stderr (run Samples.emptyEnv Samples.noSignerHre) = [undefinedAddress] ∧
    (run Samples.emptyEnv Samples.noSignerHre).trace.any Event.failed = false ∧
    awaitedCallsSucceed Samples.emptyEnv Samples.noSignerHre = true ∧
    deployedLinePrinted (run Samples.emptyEnv Samples.noSignerHre) = false := by
  refine ⟨?_, ?_, ?_, ?_, ?_, ?_⟩ <;> decide

/-- C10, amended: with the read of the first signer's address counted as a
step (it throws when there is no signer), the exit code is set to 1, and
standard error is written, if and only if some step failed; the line
`RandomVRFGame deployed to:` is printed if and only if every step succeeded;
and a run that fails after a signer was obtained has printed the four
preceding lines. -/
theorem failure_handling_exact (env : ProcessEnv) (hre : Hre) :
    ((run env hre).exitCode = some 1 ↔ allStepsSucceed env hre = false) ∧
    (stderr (run env hre) ≠ [] ↔ allStepsSucceed env hre = false) ∧
    (deployedLinePrinted (run env hre) = true ↔ allStepsSucceed env hre = true) ∧
    (∀ deployer rest, hre.getSigners = .ok (deployer :: rest) →
      allStepsSucceed env hre = false →
      stdout (run env hre) =
        [ ("Deploying with:", deployer.address),
          ("Using VRF Coordinator:", vrfCoordinator env),
          ("Using subscription ID:", subscriptionId env),
          ("Using keyHash:", keyHash env) ]) := by
  rcases main_cases env hre with ⟨e, hs, hm⟩ | ⟨hs, hm⟩ | ⟨d, rest, e, hs, hf, hm⟩ |
    ⟨d, rest, f, e, hs, hf, hd, hm⟩ | ⟨d, rest, f, g, e, hs, hf, hd, hw, hm⟩ |
    ⟨d, rest, f, g, hs, hf, hd, hw, hm⟩
  · simp [run, hm, allStepsSucceed, hs, stdout, stderr, deployedLinePrinted]
  · simp [run, hm, allStepsSucceed, hs, stdout, stderr, deployedLinePrinted]
  · simp [run, hm, allStepsSucceed, hs, hf, stdout, stderr, prologue, deployedLinePrinted]
  · simp [run, hm, allStepsSucceed, hs, hf, hd, stdout, stderr, prologue, deployedLinePrinted]
  · simp [run, hm, allStepsSucceed, hs, hf, hd, hw, stdout, stderr, prologue,
      deployedLinePrinted]
  · simp [run, hm, allStepsSucceed, hs, hf, hd, hw, stdout, stderr, prologue,
      deployedLinePrinted]

/-- C10, amended, at a sample run in which the wait for the deployment rejects. -/
theorem failure_handling_exact_witness :
    (run Samples.emptyEnv Samples.stuckHre).exitCode = some 1 ∧
    stdout (run Samples.emptyEnv Samples.stuckHre) =
      [ ("Deploying with:", Samples.alice.address),
        ("Using VRF Coordinator:", vrfCoordinator Samples.emptyEnv),
        ("Using subscription ID:", subscriptionId Samples.emptyEnv),
        ("Using keyHash:", keyHash Samples.emptyEnv) ] :=
  ⟨(failure_handling_exact Samples.emptyEnv Samples.stuckHre).1.2 (by decide),
   (failure_handling_exact Samples.emptyEnv Samples.stuckHre).2.2.2 _ _ rfl (by decide)⟩

/-- C9: when `VRF_COORDINATOR` is unset or empty the coordinator passed to the
constructor is not `0x` followed by 40 hexadecimal digits, and when
`VRF_KEY_HASH` is unset or empty the key hash passed is not `0x` followed by 64
hexadecimal digits, whereas the zero address and zero hash of the test are
well formed. -/
theorem default_arguments_malformed (env : ProcessEnv) (hre : Hre) :
    (env "VRF_COORDINATOR" = none ∨ env "VRF_COORDINATOR" = some "" →
      isHexBytes 20 (vrfCoordinator env) = false ∧
      ∀ args ok, Event.deploy args ok ∈ (run env hre).trace →
        ∃ c s k, args = [c, s, k] ∧ isHexBytes 20 c = false) ∧
    (env "VRF_KEY_HASH" = none ∨ env "VRF_KEY_HASH" = some "" →
      isHexBytes 32 (keyHash env) = false ∧
      ∀ args ok, Event.deploy args ok ∈ (run env hre).trace →
        ∃ c s k, args = [c, s, k] ∧ isHexBytes 32 k = false) ∧
    isHexBytes 20 AddressZero = true ∧ isHexBytes 32 HashZero = true := by
  have hc : env "VRF_COORDINATOR" = none ∨ env "VRF_COORDINATOR" = some "" →
      isHexBytes 20 (vrfCoordinator env) = false := by
    rintro (h | h) <;> simp only [vrfCoordinator, h, or_none, or_empty] <;> decide
  have hk : env "VRF_KEY_HASH" = none ∨ env "VRF_KEY_HASH" = some "" →
      isHexBytes 32 (keyHash env) = false := by
    rintro (h | h) <;> simp only [keyHash, h, or_none, or_empty] <;> decide
  refine ⟨fun h => ⟨hc h, fun args ok hmem => ?_⟩, fun h => ⟨hk h, fun args ok hmem => ?_⟩,
    by decide, by decide⟩
  · exact ⟨_, _, _, deploy_event_args env hre args ok hmem, hc h⟩
  · exact ⟨_, _, _, deploy_event_args env hre args ok hmem, hk h⟩

/-- C9 at a sample run with no variable set. -/
theorem default_arguments_malformed_witness :
    isHexBytes 20 (vrfCoordinator Samples.emptyEnv) = false ∧
    isHexBytes 32 (keyHash Samples.blankEnv) = false ∧
    ∃ c s k, constructorArgs Samples.emptyEnv = [c, s, k] ∧ isHexBytes 20 c = false :=
  ⟨((default_arguments_malformed Samples.emptyEnv Samples.goodHre).1 (Or.inl rfl)).1,
   ((default_arguments_malformed Samples.blankEnv Samples.goodHre).2.1 (Or.inr rfl)).1,
   ((default_arguments_malformed Samples.emptyEnv Samples.goodHre).1 (Or.inl rfl)).2
     (constructorArgs Samples.emptyEnv) true (by decide)⟩

end DeployBase

/-! ## The smoke test -/

namespace RandomVRFGameTest

open Js DeployBase Hex

/-- A successful deployment stores the sender as owner. -/
theorem deploy_ok_stores_sender (reverts : String → String → Nat → String → Bool)
    (sender vrfCoordinator : String) (subscriptionId : Nat) (keyHash : String)
    (game : RandomVRFGame)
    (h : RandomVRFGame.deploy reverts sender vrfCoordinator subscriptionId keyHash = .ok game) :
    game.owner = sender := by
  unfold RandomVRFGame.deploy at h
  split at h
  · cases h
  · cases h
    rfl

/-- C1: whoever deploys and whatever the three constructor arguments, when the
deployment of `RandomVRFGame` succeeds the owner of the new contract is the
deploying account. -/
theorem owner_is_deployer (reverts : String → String → Nat → String → Bool)
    (deployer vrfCoordinator : String) (subscriptionId : Nat) (keyHash : String)
    (game : RandomVRFGame)
    (h : RandomVRFGame.deploy reverts deployer vrfCoordinator subscriptionId keyHash = .ok game) :
    game.owner = deployer :=
  deploy_ok_stores_sender reverts deployer vrfCoordinator subscriptionId keyHash game h

/-- C1 at the inputs of the test: zero address, subscription id 0, zero hash,
deployed by the first signer. -/
theorem owner_is_deployer_witness :
    RandomVRFGame.deploy (fun _ _ _ _ => false) Samples.alice.address AddressZero 0 HashZero =
      .ok (RandomVRFGame.mk Samples.alice.address AddressZero 0 HashZero) ∧
    (RandomVRFGame.mk Samples.alice.address AddressZero 0 HashZero).owner =
      Samples.alice.address :=
  ⟨rfl,
   owner_is_deployer (fun _ _ _ _ => false) Samples.alice.address AddressZero 0 HashZero _ rfl⟩

/-- The test passes whenever its deployment succeeds. -/
theorem deploysSuccessfully_passes (reverts : String → String → Nat → String → Bool)
    (signers : List Signer) (result : Bool)
    (h : deploysSuccessfully reverts signers = .ok result) : result = true := by
  unfold deploysSuccessfully at h
  cases signers with
  | nil => simp at h
  | cons d rest =>
    simp only [List.head?] at h
    cases hd : RandomVRFGame.deploy reverts d.address AddressZero 0 HashZero with
    | error e => simp [hd] at h
    | ok game =>
      simp only [hd, Except.ok.injEq] at h
      rw [← h, deploy_ok_stores_sender reverts d.address AddressZero 0 HashZero game hd]
      simp

end RandomVRFGameTest
